import Mathlib

/-
Verification of the image-to-text routing utility (`src/parsers/image_ocr.py`
together with `src/utils/constants.py`).

The Python class `ImageOCR` is embedded as the namespace `ImageOCR`.  The
external collaborators held by `self` (the PaddleOCR engine, the zero-shot
image classifier pipeline, the formula model, and the Gemini client) are
modelled as a `Collaborators` record of functions; a Python call that may
raise is a function into `Except String _` (`.error` = an exception was
raised), and a Python function that may return `None` instead of a string
is a function into `Option String`.  Pillow images and raw byte strings are
opaque handles (`Nat`).  Classifier confidence scores are modelled as `Int`
(only their order matters to the code).  The deterministic in-repo logic —
the base64-decode guard, the classify-and-dispatch control flow, the
stable-max selection, the regex post-processing of the formula model's raw
text, and the OCR fragment concatenation — is translated statement by
statement from the source.
-/

namespace ImageOCR

/-- Opaque handle for a decoded Pillow RGB image (`Image.open(...).convert("RGB")`). -/
abbrev PILImage := Nat

/-- Opaque handle for raw image bytes (the result of `base64.b64decode`). -/
abbrev ImageBytes := Nat

/-- One entry of the zero-shot classifier's output list: a dict carrying a
candidate label and its confidence score. -/
structure ClsOutput where
  label : String
  score : Int
deriving DecidableEq

/-- `IMAGE_CATEGORY` from `src/utils/constants.py`: an insertion-ordered dict
from category name to its ordered list of candidate label strings. -/
def IMAGE_CATEGORY : List (String × List String) :=
  [("Graph",
     ["a picture including curve graph",
      "a picture including linear graph",
      "a picture including bar graph"]),
   ("Formula",
     ["equilibrium expression for a chemical",
      "formula including fraction or symbols"]),
   ("Text",
     ["a formula including Korean",
      "a sentence including Hangul",
      "a photo including Hangul",
      "a sentence including English"])]

/-- Python dict subscript `IMAGE_CATEGORY[key]` (the keys used by the code
always exist, so the `KeyError` branch is unreachable and modelled as `[]`). -/
def categoryLabels (key : String) : List String :=
  match IMAGE_CATEGORY.find? (fun kv => kv.1 == key) with
  | some kv => kv.2
  | none => []

/-- `list(chain(*IMAGE_CATEGORY.values()))` — the candidate-label set passed
to the classifier, flattened wholesale in dict insertion order. -/
def candidate_labels : List String :=
  (IMAGE_CATEGORY.map Prod.snd).flatten

/-- The external models and clients held by the `ImageOCR` instance.
Each field models one collaborator call site:
* `b64decode`          — `base64.b64decode(encode_image)`;
* `imageOpen`          — `Image.open(io.BytesIO(binary_image)).convert("RGB")`;
* `classifierRun`      — `self.image_classifier(image, candidate_labels=...)`,
  returning the pipeline's list of label/score dicts;
* `ocrPage`            — `self.ocr_model.ocr(binary_image, cls=False)[0]`,
  returning the page's list of `(bbox, (text, confidence))` entries;
* `formulaGenerate`    — processor + `generate` + `batch_decode(...)[0]`,
  returning the raw generated text;
* `geminiCaption`      — `self.client.models.generate_content(...).text`.
`Except.error` models the call raising an exception. -/
structure Collaborators where
  b64decode : String → Except String ImageBytes
  imageOpen : ImageBytes → Except String PILImage
  classifierRun : PILImage → List String → Except String (List ClsOutput)
  ocrPage : ImageBytes → Except String (List (Nat × (String × Int)))
  formulaGenerate : PILImage → Except String String
  geminiCaption : ImageBytes → Except String String

/-- Python's `max(xs, key=key)`: scan left to right keeping the current
maximum, replacing it only on a strictly larger key (so ties keep the
earlier element); on an empty list `max` raises `ValueError`, modelled as
`none`. -/
def pyMaxBy {α : Type} (key : α → Int) : List α → Option α
  | [] => none
  | x :: xs => some (xs.foldl (fun acc y => if key acc < key y then y else acc) x)

/-- `_classificate_image`: run the classifier on the flattened candidate
labels and take the best-scoring output's label; every exception (including
`ValueError` from `max` on an empty output list) is caught inside and turns
into `None`. -/
def _classificate_image (env : Collaborators) (image : PILImage) : Option String :=
  match env.classifierRun image candidate_labels with
  | .error _ => none
  | .ok outputs =>
    match pyMaxBy ClsOutput.score outputs with
    | none => none
    | some best => some best.label

/-- Python's `\s` character class (ASCII range; the labels and prompt text
involved are ASCII). -/
def isPySpace (c : Char) : Bool :=
  c == ' ' || c == '\t' || c == '\n' || c == '\r' || c == Char.ofNat 11 || c == Char.ofNat 12

/-- Match a literal character sequence at the head of the input, returning
the remainder on success. -/
def matchLit : List Char → List Char → Option (List Char)
  | [], s => some s
  | _ :: _, [] => none
  | p :: ps, c :: cs => if p == c then matchLit ps cs else none

/-- Greedily consume `\s*`.  In the echo pattern each `\s*` is followed by a
non-whitespace literal, so the greedy match never needs to backtrack. -/
def skipSpaces : List Char → List Char
  | [] => []
  | c :: cs => if isPySpace c then skipSpaces cs else c :: cs

/-- The literal pieces of the prompt-echo pattern
`User:\s*Extract mathematical expressions in LaTeX format\s*Assistant: 0>0>500>500>`. -/
def echoHead : List Char := "User:".data

/-- Middle literal of the prompt-echo pattern. -/
def echoMid : List Char := "Extract mathematical expressions in LaTeX format".data

/-- Final literal of the prompt-echo pattern. -/
def echoEnd : List Char := "Assistant: 0>0>500>500>".data

/-- Try to match the prompt-echo pattern at the start of `s`; on success
return the input remaining after the match. -/
def matchEchoAt (s : List Char) : Option (List Char) :=
  match matchLit echoHead s with
  | none => none
  | some s1 =>
    match matchLit echoMid (skipSpaces s1) with
    | none => none
    | some s2 => matchLit echoEnd (skipSpaces s2)

/-- Left-to-right scan of `re.sub(pattern, "", text)` for the prompt-echo
pattern: delete each leftmost match and continue after it.  The fuel is an
upper bound on the number of characters still to be inspected; every step
consumes at least one character, so `fuel = s.length` is always enough. -/
def subEchoFuel : Nat → List Char → List Char
  | 0, s => s
  | _ + 1, [] => []
  | fuel + 1, c :: cs =>
    match matchEchoAt (c :: cs) with
    | some rest => subEchoFuel fuel rest
    | none => c :: subEchoFuel fuel cs

/-- `re.sub(r"User:\s*Extract mathematical expressions in LaTeX format\s*Assistant: 0>0>500>500>", "", text)`. -/
def promptEchoSub (s : List Char) : List Char := subEchoFuel s.length s

/-- The four characters of the trailing artifact `\, .` (backslash, comma,
space, dot). -/
def tailArtifact : List Char := ['\\', ',', ' ', '.']

/-- `re.sub(r"\\, \.$", "", text)`: Python's `$` (without `re.MULTILINE`)
matches at the end of the string or just before a single trailing newline,
so the artifact is removed in exactly those two positions. -/
def stripTailArtifact (s : List Char) : List Char :=
  if tailArtifact.isSuffixOf s then s.take (s.length - 4)
  else if (tailArtifact ++ ['\n']).isSuffixOf s then s.take (s.length - 5) ++ ['\n']
  else s

/-- `_convert_text_to_latex`: remove every prompt-echo match, remove the
trailing `\, .` artifact, then wrap in dollar signs via `f"${text}$"`
(unconditionally, even when the remainder is empty). -/
def _convert_text_to_latex (text : String) : String :=
  ('$' :: stripTailArtifact (promptEchoSub text.data) ++ ['$']).asString

/-- `_extract_formula_from_image`: obtain the raw generated text from the
formula model and post-process it (`fr"{...}"` applied to a `str` in the
caller is the identity). -/
def _extract_formula_from_image (env : Collaborators) (image : PILImage) :
    Except String String :=
  (env.formulaGenerate image).map _convert_text_to_latex

/-- `extract_text`: take the page's OCR entries `(bbox, (text, confidence))`
in order and join the text fields with single spaces — no filtering. -/
def extract_text (env : Collaborators) (binary_image : ImageBytes) :
    Except String String :=
  (env.ocrPage binary_image).map
    (fun page => String.intercalate " " (page.map (fun e => e.2.1)))

/-- `get_caption_with_gemini`: pure delegation to the Gemini client. -/
def get_caption_with_gemini (env : Collaborators) (binary_image : ImageBytes) :
    Except String String :=
  env.geminiCaption binary_image

/-- The body of the second `try` block of `convert_img_to_txt` (lines 64–71):
classify, then dispatch on category membership; `.error` means an exception
escaped the block (only the three handlers can raise there —
`_classificate_image` swallows its own). -/
def dispatch_phase (env : Collaborators) (binary_image : ImageBytes)
    (image : PILImage) : Except String String :=
  let image_type := _classificate_image env image
  if (match image_type with
      | some l => (categoryLabels "Text").contains l
      | none => false) then
    extract_text env binary_image
  else if (match image_type with
      | some l => (categoryLabels "Formula").contains l
      | none => false) then
    _extract_formula_from_image env image
  else
    get_caption_with_gemini env binary_image

/-- `convert_img_to_txt`: decode the base64 payload and open it as an RGB
image (on failure: log and `return`, i.e. `None`); then run the dispatch
phase, returning its string, and on any exception there return the original
encoded input string. -/
def convert_img_to_txt (env : Collaborators) (encode_image : String) :
    Option String :=
  match env.b64decode encode_image with
  | .error _ => none
  | .ok binary_image =>
    match env.imageOpen binary_image with
    | .error _ => none
    | .ok image =>
      match dispatch_phase env binary_image image with
      | .ok s => some s
      | .error _ => some encode_image

/-! ### Concrete collaborator environments used as witnesses -/

/-- A benign environment: every collaborator call succeeds with a fixed
value.  Witness environments below override single fields. -/
def baseEnv : Collaborators where
  b64decode := fun _ => .ok 0
  imageOpen := fun _ => .ok 0
  classifierRun := fun _ _ => .ok []
  ocrPage := fun _ => .ok []
  formulaGenerate := fun _ => .ok ""
  geminiCaption := fun _ => .ok "a caption"

/-- Environment where the classifier picks a Text-category label and the
OCR engine then raises. -/
def envOcrRaises : Collaborators :=
  { baseEnv with
    classifierRun := fun _ _ => .ok [⟨"a sentence including English", 1⟩],
    ocrPage := fun _ => .error "ocr crashed" }

/-- Environment where the classifier picks a Text-category label and the
OCR engine returns two fragments. -/
def envOcrTwoFragments : Collaborators :=
  { baseEnv with
    classifierRun := fun _ _ => .ok [⟨"a sentence including Hangul", 1⟩],
    ocrPage := fun _ => .ok [(0, ("hello", 9)), (1, ("world", 8))] }

/-- Environment where the classifier picks a Formula-category label and the
formula model generates an empty raw text. -/
def envFormulaEmpty : Collaborators :=
  { baseEnv with
    classifierRun := fun _ _ => .ok [⟨"formula including fraction or symbols", 1⟩],
    formulaGenerate := fun _ => .ok "" }

/-- Environment where the classifier picks a Formula-category label and the
formula model generates the raw text `x=1`. -/
def envFormulaPlain : Collaborators :=
  { baseEnv with
    classifierRun := fun _ _ => .ok [⟨"equilibrium expression for a chemical", 1⟩],
    formulaGenerate := fun _ => .ok "x=1" }

/-- Environment whose base64 decoding raises. -/
def envBadBase64 : Collaborators :=
  { baseEnv with b64decode := fun _ => .error "Invalid base64-encoded string" }

/-- Environment where the classifier call raises but the Gemini captioner
still answers. -/
def envClassifierRaises : Collaborators :=
  { baseEnv with classifierRun := fun _ _ => .error "model crashed" }

/-- Environment where both the classifier call and the Gemini captioner
raise. -/
def envClassifierAndGeminiRaise : Collaborators :=
  { baseEnv with
    classifierRun := fun _ _ => .error "model crashed",
    geminiCaption := fun _ => .error "network down" }

/-- Classifier output over the full nine-label candidate set with a score
tie between the second and the fourth entry. -/
def tieOutputs : List ClsOutput :=
  [⟨"a picture including curve graph", 2⟩,
   ⟨"a picture including linear graph", 7⟩,
   ⟨"a picture including bar graph", 1⟩,
   ⟨"equilibrium expression for a chemical", 7⟩,
   ⟨"formula including fraction or symbols", 0⟩,
   ⟨"a formula including Korean", 3⟩,
   ⟨"a sentence including Hangul", 0⟩,
   ⟨"a photo including Hangul", 0⟩,
   ⟨"a sentence including English", 0⟩]

/-- Environment whose classifier returns `tieOutputs`. -/
def envTie : Collaborators :=
  { baseEnv with classifierRun := fun _ _ => .ok tieOutputs }

/-! ### General lemmas about the embedded operations -/

theorem contains_of_mem {l : List String} {a : String} (h : a ∈ l) :
    l.contains a = true :=
  List.elem_eq_true_of_mem h

theorem pyFold_fixed {α : Type} (key : α → Int) (acc : α) (l : List α)
    (h : ∀ y ∈ l, key y ≤ key acc) :
    l.foldl (fun a y => if key a < key y then y else a) acc = acc := by
  induction l with
  | nil => rfl
  | cons x xs ih =>
    simp only [List.foldl_cons]
    rw [if_neg (not_lt.mpr (h x (List.mem_cons_self x xs)))]
    exact ih fun y hy => h y (List.mem_cons_of_mem x hy)

theorem pyFold_reaches_first_max {α : Type} (key : α → Int) (o : α)
    (l1 l2 : List α) (acc : α) (hacc : key acc < key o)
    (h1 : ∀ y ∈ l1, key y < key o) (h2 : ∀ y ∈ l2, key y ≤ key o) :
    (l1 ++ o :: l2).foldl (fun a y => if key a < key y then y else a) acc = o := by
  induction l1 generalizing acc with
  | nil =>
    simp only [List.nil_append, List.foldl_cons]
    rw [if_pos hacc]
    exact pyFold_fixed key o l2 h2
  | cons x xs ih =>
    simp only [List.cons_append, List.foldl_cons]
    by_cases hx : key acc < key x
    · rw [if_pos hx]
      exact ih x (h1 x (List.mem_cons_self x xs))
        (fun y hy => h1 y (List.mem_cons_of_mem x hy))
    · rw [if_neg hx]
      exact ih acc hacc (fun y hy => h1 y (List.mem_cons_of_mem x hy))

theorem pyMaxBy_first_max {α : Type} (key : α → Int) (l1 l2 : List α) (o : α)
    (h1 : ∀ y ∈ l1, key y < key o) (h2 : ∀ y ∈ l2, key y ≤ key o) :
    pyMaxBy key (l1 ++ o :: l2) = some o := by
  cases l1 with
  | nil =>
    simp only [List.nil_append, pyMaxBy]
    rw [pyFold_fixed key o l2 h2]
  | cons x xs =>
    simp only [List.cons_append, pyMaxBy, Option.some.injEq]
    exact pyFold_reaches_first_max key o xs l2 x (h1 x (List.mem_cons_self x xs))
      (fun y hy => h1 y (List.mem_cons_of_mem x hy)) h2

theorem dispatch_phase_of_label (env : Collaborators) (binary_image : ImageBytes)
    (image : PILImage) (label : String)
    (h : _classificate_image env image = some label) :
    dispatch_phase env binary_image image =
      if (categoryLabels "Text").contains label then extract_text env binary_image
      else if (categoryLabels "Formula").contains label then
        _extract_formula_from_image env image
      else get_caption_with_gemini env binary_image := by
  simp only [dispatch_phase, h]

theorem dispatch_phase_of_no_label (env : Collaborators) (binary_image : ImageBytes)
    (image : PILImage) (h : _classificate_image env image = none) :
    dispatch_phase env binary_image image = get_caption_with_gemini env binary_image := by
  simp [dispatch_phase, h]

/-! ### The claims -/

/-- Claim C1: when the input decodes to a valid RGB image and an exception
is raised inside the classification-and-dispatch phase (in particular by
the invoked category handler), `convert_img_to_txt` catches it at the top
level and returns the original encoded input string unchanged; being a
total function into `Option String`, it propagates no exception to the
caller. -/
theorem convert_returns_input_on_handler_exception
    (env : Collaborators) (encode_image : String) (binary_image : ImageBytes)
    (image : PILImage) (err : String)
    (hdec : env.b64decode encode_image = .ok binary_image)
    (hopen : env.imageOpen binary_image = .ok image)
    (hdisp : dispatch_phase env binary_image image = .error err) :
    convert_img_to_txt env encode_image = some encode_image := by
  simp only [convert_img_to_txt, hdec, hopen, hdisp]

/-- Witness for C1: an OCR engine that raises after a Text-category
classification makes `convert_img_to_txt` hand back the original input. -/
theorem convert_returns_input_on_handler_exception_witness :
    convert_img_to_txt envOcrRaises "ENCODED" = some "ENCODED" :=
  convert_returns_input_on_handler_exception envOcrRaises "ENCODED" 0 0
    "ocr crashed" rfl rfl rfl

/-- Claim C2: for a valid encoded image classified with a Text-category
label, `convert_img_to_txt` returns the OCR result: every detected text
fragment, in the order returned by the engine, joined by single spaces and
with no confidence filtering — not a caption and not a LaTeX string. -/
theorem convert_text_category_returns_ocr
    (env : Collaborators) (encode_image : String) (binary_image : ImageBytes)
    (image : PILImage) (label : String) (page : List (Nat × (String × Int)))
    (hdec : env.b64decode encode_image = .ok binary_image)
    (hopen : env.imageOpen binary_image = .ok image)
    (hcls : _classificate_image env image = some label)
    (hmem : label ∈ categoryLabels "Text")
    (hocr : env.ocrPage binary_image = .ok page) :
    convert_img_to_txt env encode_image =
      some (String.intercalate " " (page.map (fun e => e.2.1))) := by
  simp [convert_img_to_txt, hdec, hopen,
    dispatch_phase_of_label env binary_image image label hcls,
    contains_of_mem hmem, hmem, extract_text, hocr, Except.map, String.intercalate]

/-- Witness for C2: two OCR fragments come back joined by a single space. -/
theorem convert_text_category_returns_ocr_witness :
    convert_img_to_txt envOcrTwoFragments "ENCODED" = some "hello world" :=
  convert_text_category_returns_ocr envOcrTwoFragments "ENCODED" 0 0
    "a sentence including Hangul" [(0, ("hello", 9)), (1, ("world", 8))]
    rfl rfl rfl (by decide) rfl

/-- Counterexample to claim C3 as stated: with a Formula-category
classification and an empty cleaned model output, `convert_img_to_txt`
returns `"$$"`, a string that begins with a doubled dollar sign rather
than a single one. -/
theorem convert_formula_double_dollar_counterexample :
    convert_img_to_txt envFormulaEmpty "ENCODED" = some "$$" ∧
    "$$".data = ['$', '$'] := by
  exact ⟨by decide, by decide⟩

/-- Claim C3 (amended): for a Formula-category classification label, the
string returned by `convert_img_to_txt` is the cleaned model output
wrapped in dollar signs — it always starts with `$` and ends with `$` —
but the wrapping is unconditional, so a doubled dollar sign occurs exactly
when the cleaned text is empty or itself borders on a dollar sign. -/
theorem convert_formula_category_dollar_wrapped
    (env : Collaborators) (encode_image : String) (binary_image : ImageBytes)
    (image : PILImage) (label raw : String)
    (hdec : env.b64decode encode_image = .ok binary_image)
    (hopen : env.imageOpen binary_image = .ok image)
    (hcls : _classificate_image env image = some label)
    (hmem : label ∈ categoryLabels "Formula")
    (hgen : env.formulaGenerate image = .ok raw) :
    convert_img_to_txt env encode_image = some (_convert_text_to_latex raw) ∧
    (_convert_text_to_latex raw).data.head? = some '$' ∧
    (_convert_text_to_latex raw).data.getLast? = some '$' := by
  have htext : label ∉ categoryLabels "Text" := by
    have hmem2 : label ∈ ["equilibrium expression for a chemical",
        "formula including fraction or symbols"] := hmem
    rcases List.mem_pair.mp hmem2 with h | h <;> subst h <;> decide
  refine ⟨?_, rfl, ?_⟩
  · simp [convert_img_to_txt, hdec, hopen,
      dispatch_phase_of_label env binary_image image label hcls, htext,
      contains_of_mem hmem, hmem, _extract_formula_from_image, hgen, Except.map]
  · show (('$' :: stripTailArtifact (promptEchoSub raw.data)) ++ ['$']).getLast? = some '$'
    exact List.getLast?_concat _

/-- Witness for C3 (amended): raw output `x=1` yields `$x=1$`, singly
wrapped on both ends. -/
theorem convert_formula_category_dollar_wrapped_witness :
    convert_img_to_txt envFormulaPlain "ENCODED" = some (_convert_text_to_latex "x=1") ∧
    (_convert_text_to_latex "x=1").data.head? = some '$' ∧
    (_convert_text_to_latex "x=1").data.getLast? = some '$' :=
  convert_formula_category_dollar_wrapped envFormulaPlain "ENCODED" 0 0
    "equilibrium expression for a chemical" "x=1" rfl rfl rfl (by decide) rfl

/-- Claim C4: when the input fails to decode into a valid RGB image —
`base64.b64decode` raises, or opening/converting the decoded bytes raises —
`convert_img_to_txt` returns `none`, an outcome distinguishable from a
successful empty string, and no exception escapes. -/
theorem convert_decode_failure_returns_none
    (env : Collaborators) (encode_image : String) (err : String)
    (h : (env.b64decode encode_image).bind env.imageOpen = .error err) :
    convert_img_to_txt env encode_image = none ∧
    (none : Option String) ≠ some "" := by
  refine ⟨?_, by simp⟩
  cases hb : env.b64decode encode_image with
  | error e => simp only [convert_img_to_txt, hb]
  | ok bin =>
    rw [hb] at h
    simp only [Except.bind] at h
    simp only [convert_img_to_txt, hb, h]

/-- Witness for C4: a raising base64 decoder yields `none`. -/
theorem convert_decode_failure_returns_none_witness :
    convert_img_to_txt envBadBase64 "%%%not-base64" = none ∧
    (none : Option String) ≠ some "" :=
  convert_decode_failure_returns_none envBadBase64 "%%%not-base64"
    "Invalid base64-encoded string" rfl

/-- Counterexample to claim C5 as stated: when the classifier call raises,
`_classificate_image` swallows the exception and returns no label, so the
dispatch falls through to the caption branch and `convert_img_to_txt`
returns the Gemini caption, not the original encoded input. -/
theorem classifier_failure_counterexample :
    convert_img_to_txt envClassifierRaises "ENCODED" = some "a caption" ∧
    some "a caption" ≠ some "ENCODED" :=
  ⟨by decide, by decide⟩

/-- Claim C5 (amended): when the classifier fails internally no label is
produced and the dispatch falls through to the default caption branch; the
original encoded input is returned only when the caption call itself then
raises and the top-level handler fires. -/
theorem classifier_failure_dispatches_to_caption
    (env : Collaborators) (encode_image : String) (binary_image : ImageBytes)
    (image : PILImage) (err : String)
    (hdec : env.b64decode encode_image = .ok binary_image)
    (hopen : env.imageOpen binary_image = .ok image)
    (hcls : env.classifierRun image candidate_labels = .error err) :
    convert_img_to_txt env encode_image =
      match env.geminiCaption binary_image with
      | .ok caption => some caption
      | .error _ => some encode_image := by
  have hnone : _classificate_image env image = none := by
    simp only [_classificate_image, hcls]
  simp only [convert_img_to_txt, hdec, hopen,
    dispatch_phase_of_no_label env binary_image image hnone,
    get_caption_with_gemini]

/-- Witness for C5 (amended): with classifier and captioner both raising,
the fallback returns the original input. -/
theorem classifier_failure_dispatches_to_caption_witness :
    convert_img_to_txt envClassifierAndGeminiRaise "ENCODED" =
      match envClassifierAndGeminiRaise.geminiCaption 0 with
      | .ok caption => some caption
      | .error _ => some "ENCODED" :=
  classifier_failure_dispatches_to_caption envClassifierAndGeminiRaise
    "ENCODED" 0 0 "model crashed" rfl rfl rfl

/-- Claim C6: when the classifier's output list — one score per candidate
label, listed in the input candidate-label order — contains two or more
entries sharing the maximal score, `_classificate_image` deterministically
selects the label occurring first in that order (Python's `max` keeps the
current maximum on ties). -/
theorem classifier_tie_break_stable
    (env : Collaborators) (image : PILImage) (outputs l1 l2 : List ClsOutput)
    (o : ClsOutput)
    (houts : env.classifierRun image candidate_labels = .ok outputs)
    (horder : outputs.map ClsOutput.label = candidate_labels)
    (hsplit : outputs = l1 ++ o :: l2)
    (hbefore : ∀ y ∈ l1, y.score < o.score)
    (hmax : ∀ y ∈ outputs, y.score ≤ o.score)
    (htie : ∃ y ∈ l2, y.score = o.score) :
    _classificate_image env image = some o.label := by
  simp only [_classificate_image, houts]
  rw [hsplit, pyMaxBy_first_max ClsOutput.score l1 l2 o hbefore
    (fun y hy => hmax y (by
      rw [hsplit]
      exact List.mem_append_right _ (List.mem_cons_of_mem o hy)))]

/-- Witness for C6: with a score of 7 on both the second and the fourth of
the nine candidates, the second one (first in candidate order) wins. -/
theorem classifier_tie_break_stable_witness :
    _classificate_image envTie 0 = some "a picture including linear graph" :=
  classifier_tie_break_stable envTie 0 tieOutputs
    [⟨"a picture including curve graph", 2⟩]
    [⟨"a picture including bar graph", 1⟩,
     ⟨"equilibrium expression for a chemical", 7⟩,
     ⟨"formula including fraction or symbols", 0⟩,
     ⟨"a formula including Korean", 3⟩,
     ⟨"a sentence including Hangul", 0⟩,
     ⟨"a photo including Hangul", 0⟩,
     ⟨"a sentence including English", 0⟩]
    ⟨"a picture including linear graph", 7⟩
    rfl (by decide) (by decide) (by decide) (by decide) (by decide)

/-- Claim C7: cleaning the raw text made of the literal prompt echo
`User: Extract mathematical expressions in LaTeX format Assistant: 0>0>500>500>`
followed by `x=1\, .` yields exactly `$x=1$`. -/
theorem formula_postprocess_concrete :
    _convert_text_to_latex
      "User: Extract mathematical expressions in LaTeX format Assistant: 0>0>500>500>x=1\\, ." =
      "$x=1$" := by decide

/-- Claim C8: `_convert_text_to_latex` performs exactly three steps in
order — remove the prompt-template echo matches, remove a trailing `\, .`
sequence at end of string, then wrap the remainder in dollar signs
unconditionally — so an input whose cleaned remainder is empty yields
`$$`. -/
theorem latex_cleanup_three_steps (text : String) :
    _convert_text_to_latex text =
      ('$' :: stripTailArtifact (promptEchoSub text.data) ++ ['$']).asString ∧
    (stripTailArtifact (promptEchoSub text.data) = [] →
      _convert_text_to_latex text = "$$") := by
  refine ⟨rfl, fun h => ?_⟩
  unfold _convert_text_to_latex
  rw [h]
  decide

/-- Witness for C8: a raw text that is the prompt echo followed by the
trailing artifact cleans to the empty remainder and wraps to `$$`. -/
theorem latex_cleanup_three_steps_witness :
    stripTailArtifact (promptEchoSub
      ("User: Extract mathematical expressions in LaTeX format Assistant: 0>0>500>500>\\, .").data) = [] ∧
    _convert_text_to_latex
      "User: Extract mathematical expressions in LaTeX format Assistant: 0>0>500>500>\\, ." =
      "$$" :=
  ⟨by decide, (latex_cleanup_three_steps
      "User: Extract mathematical expressions in LaTeX format Assistant: 0>0>500>500>\\, .").2
    (by decide)⟩

/-- Claim C9: the candidate-label set handed to the classifier is the
`CategoryTable` flattened wholesale — the Graph labels, then the Formula
labels, then the Text labels, nine labels in total. -/
theorem candidate_labels_flattened :
    candidate_labels =
      categoryLabels "Graph" ++ categoryLabels "Formula" ++ categoryLabels "Text" ∧
    candidate_labels.length = 9 := by decide

/-- Claim C10: the shipped `CategoryTable` label lists are pairwise
disjoint, and every candidate label is contained in exactly one category's
list, so the membership-lookup dispatch is unambiguous. -/
theorem image_category_disjoint :
    (∀ l ∈ categoryLabels "Graph",
       l ∉ categoryLabels "Formula" ∧ l ∉ categoryLabels "Text") ∧
    (∀ l ∈ categoryLabels "Formula", l ∉ categoryLabels "Text") ∧
    (∀ l ∈ candidate_labels,
       (IMAGE_CATEGORY.filter (fun kv => kv.2.contains l)).length = 1) := by
  decide

end ImageOCR
